import Mathlib

/-!
Shallow embedding of the generation front-end in src/app.py.

The embedded functions are `check_api_keys`, `process_api_output`
(the response normalizer), the three generator functions
(`generate_banner`, `generate_short_form_video`, `edit_image`),
`cleanup_temp_file`, and the two button handlers of the page
(left column: banner / short-form video; right column: edit).

External effects are made explicit parameters:
  - the HTTP layer (requests.get followed by raise_for_status) is a
    function from URL to `FetchOutcome`;
  - the image decoder (PIL Image.open) is a function from body bytes to
    `Option PILImage`, `none` meaning the decoder raises;
  - the remote provider (replicate.run) is a function from the request
    payload to a `CallResult`;
  - the file system is a function from path to optional contents;
  - Streamlit st.error messages are collected in an explicit list, since
    they are a display side channel, not part of any return value.
-/

namespace App

/-- Raw provider output, as far as `process_api_output` inspects it:
a Python string, a Python list, an object exposing a `url` attribute
(the replicate client file-output object), or any other value (which has
no `url` attribute), tagged with the display name of its type. -/
inductive PyVal where
  | pstr (s : String)
  | plist (xs : List PyVal)
  | pobjWithUrl (url : String)
  | pother (typeName : String)

/-- Display name of the runtime type of a value, standing for the
rendering of type(output) in the f-string at src/app.py lines 165 and 176.
(The exact surrounding text of the Python repr is abstracted to the bare
type name.) -/
def pyType : PyVal → String
  | .pstr _ => "str"
  | .plist _ => "list"
  | .pobjWithUrl _ => "FileOutput"
  | .pother t => t

/-- Coercion to string, modelling the Python str(...) call at
src/app.py lines 153 and 172. On a string it is the identity; on the
replicate file-output object it yields the URL; on other values it is a
representational placeholder (the claims never fix the text of str() on
those shapes, and the resulting string is only ever fed to the
universally quantified fetch function). -/
def pyStr : PyVal → String
  | .pstr s => s
  | .pobjWithUrl u => u
  | .plist _ => "[...]"
  | .pother t => "<" ++ t ++ " object>"

/-- Whether the value exposes a url attribute (hasattr(output, "url") at
src/app.py lines 158 and 173), and if so which URL it carries. -/
def hasUrlAttr : PyVal → Option String
  | .pobjWithUrl u => some u
  | _ => none

/-- Outcome of requests.get on a URL: a response with status code and
body bytes, or the transport raising an exception. -/
inductive FetchOutcome where
  | response (status : Nat) (body : List Nat)
  | raises (msg : String)

/-- A decoded PIL image. The decoded pixel data is abstract. -/
structure PILImage where
  pixels : List Nat
deriving DecidableEq

/-- The Python exceptions that can arise inside the try block of
`process_api_output`: requests raise_for_status on a non-2xx response,
PIL failing to identify the image bytes, or the transport itself
raising. -/
inductive PyExn where
  | httpError (status : Nat)
  | decodeError
  | transportError (msg : String)
deriving DecidableEq

/-- The normalized value returned by `process_api_output` on success:
a decoded image, or a video URL kept as a string. -/
inductive Processed where
  | image (img : PILImage)
  | videoUrl (url : String)
deriving DecidableEq

/-- The st.error messages emitted by `process_api_output`:
the unexpected-format message of lines 165 and 176 (carrying the type
name of the output), and the processing-error message of line 180
(carrying the caught exception, whose str() rendering the message
interpolates). -/
inductive ErrMsg where
  | unexpectedFormat (typeName : String)
  | processingError (e : PyExn)
deriving DecidableEq

/-- requests.get(url) followed by response.raise_for_status() followed by
Image.open(BytesIO(response.content)), as in src/app.py lines 147 to 150
(and identically lines 154 to 156 and 160 to 162). raise_for_status
raises exactly on a 4xx or 5xx status; any other final status (2xx, but
also 1xx and 3xx responses the transport hands back) passes through,
and its body proceeds to the decoder, which raises the decode error on
a body it cannot identify. -/
def fetch_image (fetch : String → FetchOutcome) (decode : List Nat → Option PILImage)
    (url : String) : Except PyExn PILImage :=
  match fetch url with
  | .raises m => .error (.transportError m)
  | .response status body =>
    if 400 ≤ status ∧ status < 600 then .error (.httpError status)
    else
      match decode body with
      | some img => .ok img
      | none => .error .decodeError

/-- The body of the try block of `process_api_output`
(src/app.py lines 143 to 177): the if/elif/elif/else dispatch on the
shape of the output, for the image branch and the video branch. An
uncaught exception is the .error case. The second component collects
the st.error messages emitted on the non-exceptional paths. -/
def process_api_output_body (fetch : String → FetchOutcome)
    (decode : List Nat → Option PILImage)
    (output : PyVal) (content_type : String) :
    Except PyExn (Option Processed × List ErrMsg) :=
  if content_type == "image" then
    match output with
    | .pstr s =>
      (fetch_image fetch decode s).map (fun img => (some (.image img), []))
    | .plist (x :: _) =>
      (fetch_image fetch decode (pyStr x)).map (fun img => (some (.image img), []))
    | .pobjWithUrl u =>
      (fetch_image fetch decode u).map (fun img => (some (.image img), []))
    | out => .ok (none, [.unexpectedFormat (pyType out)])
  else
    match output with
    | .pstr s => .ok (some (.videoUrl s), [])
    | .plist (x :: _) => .ok (some (.videoUrl (pyStr x)), [])
    | .pobjWithUrl u => .ok (some (.videoUrl u), [])
    | out => .ok (none, [.unexpectedFormat (pyType out)])

/-- `process_api_output` (src/app.py lines 131 to 181): the try block
above wrapped in the catch-all except handler, which emits the
processing-error message and returns None. The first component is the
value returned to the caller; the second is the list of st.error
messages displayed. -/
def process_api_output (fetch : String → FetchOutcome)
    (decode : List Nat → Option PILImage)
    (output : PyVal) (content_type : String) :
    Option Processed × List ErrMsg :=
  match process_api_output_body fetch decode output content_type with
  | .ok r => r
  | .error e => (none, [.processingError e])

/-- The outcome of fetching and decoding one URL in the image branch,
as seen from the caller of `process_api_output`: the decoded image on
success, or None together with the processing-error message. -/
def imageOutcome (fetch : String → FetchOutcome)
    (decode : List Nat → Option PILImage) (url : String) :
    Option Processed × List ErrMsg :=
  match fetch_image fetch decode url with
  | .ok img => (some (.image img), [])
  | .error e => (none, [.processingError e])

/-- The three credential values read at startup (src/app.py lines 13
to 15). Each is the result of st.secrets.get(...) or os.getenv(...),
hence possibly absent. -/
structure Keys where
  fal_api_key : Option String
  google_api_key : Option String
  replicate_api_token : Option String

/-- Python truthiness of a possibly absent string credential:
None and the empty string are falsy. -/
def keyPresent : Option String → Bool
  | none => false
  | some s => !(s == "")

/-- The missing_keys list built inside `check_api_keys`
(src/app.py lines 104 to 110), in source order. -/
def missing_keys (k : Keys) : List String :=
  (if keyPresent k.fal_api_key then [] else ["FAL_API_KEY"]) ++
  (if keyPresent k.google_api_key then [] else ["GOOGLE_API_KEY"]) ++
  (if keyPresent k.replicate_api_token then [] else ["REPLICATE_API_TOKEN"])

/-- `check_api_keys` (src/app.py lines 97 to 114): returns whether all
keys are present, and on failure the message naming the missing ones. -/
def check_api_keys (k : Keys) : Bool × String :=
  if (missing_keys k).isEmpty then (true, "")
  else (false, "Missing API keys: " ++ String.intercalate ", " (missing_keys k))

/-- The payload handed to replicate.run (src/app.py lines 214 to 223,
279 to 287, 343 to 351): the model identifier, the prompt text, the
bytes of the opened reference-image file, the two forwarded keys, and
for the banner model the aspect field. -/
structure ProviderInput where
  model : String
  text : String
  image : List Nat
  f_api_key : Option String
  g_api_key : Option String
  aspect : Option String
deriving DecidableEq

/-- Outcome of the replicate.run call: the raw output value, or the
transport raising an exception with a message. -/
inductive CallResult where
  | ok (raw : PyVal)
  | raised (msg : String)

/-- The st.error messages emitted at the generator level: the
configuration-error message (src/app.py line 199 and its twins), the
catch-all generation-error message (line 242 and its twins), or a
message forwarded from `process_api_output`. -/
inductive GenMessage where
  | configError (msg : String)
  | generateError (msg : String)
  | processing (m : ErrMsg)
deriving DecidableEq

/-- The banner model identifier (src/app.py line 215). -/
def banner_model : String :=
  "smoretalk/banner-agent:3c5abcaa3101f9e9b216ae60d89aeca98f5223dacd8399613504f1aebc32cfea"

/-- The short-form video model identifier (src/app.py line 280). -/
def short_form_model : String :=
  "smoretalk/short-form-agent:c712a086199c854d29172eb9434c34ba812d2312c414ca0466ea3acc30e14029"

/-- The edit model identifier (src/app.py line 344). -/
def edit_model : String :=
  "smoretalk/edit-agent:155b8d038510340657a71cd97fccdfdd27bf8d60a3165a1db5b662954508bc63"

/-- Result of running one generator function: the value it returns to
the handler, the log of provider calls it issued (so that the number of
network calls is observable), and the messages it displayed. -/
structure GenRun where
  result : Option Processed
  calls : List ProviderInput
  messages : List GenMessage
deriving DecidableEq

/-- `generate_banner` (src/app.py lines 183 to 247). Checks the keys
first and returns None with the configuration-error message if any is
missing, before touching the file or the network; then opens the
reference image (a failing open raises, is caught by the outer except,
and yields the generation-error message); then issues exactly one
provider call; a raising call is caught by the outer except; otherwise
the raw output goes through `process_api_output` with content type
image. The file-system parameter maps a path to its contents, none
meaning open raises. -/
def generate_banner (keys : Keys) (fs : String → Option (List Nat))
    (provider : ProviderInput → CallResult)
    (fetch : String → FetchOutcome) (decode : List Nat → Option PILImage)
    (text : String) (image_path : String) (aspect : String) : GenRun :=
  let ck := check_api_keys keys
  if ck.1 then
    match fs image_path with
    | none =>
      { result := none, calls := [],
        messages := [.generateError ("Error generating banner: open failed: " ++ image_path)] }
    | some bytes =>
      let inp : ProviderInput :=
        { model := banner_model, text := text, image := bytes,
          f_api_key := keys.fal_api_key, g_api_key := keys.google_api_key,
          aspect := some aspect }
      match provider inp with
      | .raised m =>
        { result := none, calls := [inp],
          messages := [.generateError ("Error generating banner: " ++ m)] }
      | .ok raw =>
        let pr := process_api_output fetch decode raw "image"
        { result := pr.1, calls := [inp], messages := pr.2.map .processing }
  else { result := none, calls := [], messages := [.configError ck.2] }

/-- `generate_short_form_video` (src/app.py lines 249 to 311): same
structure as `generate_banner`, with the video model, no aspect field
in the payload, and content type video for normalization. -/
def generate_short_form_video (keys : Keys) (fs : String → Option (List Nat))
    (provider : ProviderInput → CallResult)
    (fetch : String → FetchOutcome) (decode : List Nat → Option PILImage)
    (text : String) (image_path : String) : GenRun :=
  let ck := check_api_keys keys
  if ck.1 then
    match fs image_path with
    | none =>
      { result := none, calls := [],
        messages := [.generateError ("Error generating video: open failed: " ++ image_path)] }
    | some bytes =>
      let inp : ProviderInput :=
        { model := short_form_model, text := text, image := bytes,
          f_api_key := keys.fal_api_key, g_api_key := keys.google_api_key,
          aspect := none }
      match provider inp with
      | .raised m =>
        { result := none, calls := [inp],
          messages := [.generateError ("Error generating video: " ++ m)] }
      | .ok raw =>
        let pr := process_api_output fetch decode raw "video"
        { result := pr.1, calls := [inp], messages := pr.2.map .processing }
  else { result := none, calls := [], messages := [.configError ck.2] }

/-- `edit_image` (src/app.py lines 313 to 375): same structure as
`generate_banner`, with the edit model, no aspect field, and content
type image for normalization. -/
def edit_image (keys : Keys) (fs : String → Option (List Nat))
    (provider : ProviderInput → CallResult)
    (fetch : String → FetchOutcome) (decode : List Nat → Option PILImage)
    (text : String) (image_path : String) : GenRun :=
  let ck := check_api_keys keys
  if ck.1 then
    match fs image_path with
    | none =>
      { result := none, calls := [],
        messages := [.generateError ("Error editing image: open failed: " ++ image_path)] }
    | some bytes =>
      let inp : ProviderInput :=
        { model := edit_model, text := text, image := bytes,
          f_api_key := keys.fal_api_key, g_api_key := keys.google_api_key,
          aspect := none }
      match provider inp with
      | .raised m =>
        { result := none, calls := [inp],
          messages := [.generateError ("Error editing image: " ++ m)] }
      | .ok raw =>
        let pr := process_api_output fetch decode raw "image"
        { result := pr.1, calls := [inp], messages := pr.2.map .processing }
  else { result := none, calls := [], messages := [.configError ck.2] }

/-- An uploaded file as the handlers see it: its name and its bytes. -/
structure UploadedFile where
  name : String
  content : List Nat
deriving DecidableEq

/-- The session-state slots the handlers read and write
(src/app.py lines 496 to 499 and 620 to 622). -/
structure SessionState where
  left_generated_banner : Option Processed
  left_generated_video : Option Processed
  left_generated_aspect : Option String
  left_generated_content_type : Option String
  right_edited_image : Option Processed
deriving DecidableEq

/-- The ASCII whitespace characters Python str.strip removes: space,
tab, newline, carriage return, vertical tab, form feed. -/
def isPySpace (c : Char) : Bool :=
  c == ' ' || c == Char.ofNat 9 || c == Char.ofNat 10 || c == Char.ofNat 13 ||
    c == Char.ofNat 11 || c == Char.ofNat 12

/-- Drop leading whitespace from a character list. -/
def dropSpaces : List Char → List Char
  | [] => []
  | c :: t => if isPySpace c then dropSpaces t else c :: t

/-- Python str.strip(): remove leading and trailing whitespace. -/
def pyStrip (s : String) : String :=
  String.mk ((dropSpaces (dropSpaces s.data).reverse).reverse)

/-- The generate button disabling condition (src/app.py line 477):
the text must be truthy after stripping and a file must be uploaded. -/
def generate_disabled (text : String) (uploaded : Option UploadedFile) : Bool :=
  !(!(pyStrip text == "") && uploaded.isSome)

/-- The edit button disabling condition (src/app.py line 608), same
shape as `generate_disabled`. -/
def edit_disabled (text : String) (uploaded : Option UploadedFile) : Bool :=
  !(!(pyStrip text == "") && uploaded.isSome)

/-- The aspect_key fallback expression (src/app.py line 487):
lowercase the selection if it is truthy, else the string square. -/
def aspect_key (aspect : Option String) : String :=
  match aspect with
  | none => "square"
  | some s => if s == "" then "square" else s.toLower

/-- Writing a file: the file system afterwards. Models the write into
the temporary file in `save_uploaded_file` (src/app.py lines 127 to 129). -/
def fsWrite (fs : String → Option (List Nat)) (p : String) (v : List Nat) :
    String → Option (List Nat) :=
  fun q => if q == p then some v else fs q

/-- Deleting a file: the file system after os.unlink. -/
def fsDelete (fs : String → Option (List Nat)) (p : String) :
    String → Option (List Nat) :=
  fun q => if q == p then none else fs q

/-- `cleanup_temp_file` (src/app.py lines 377 to 388): unlink the file
if it exists. The unlink call itself is modelled as succeeding (its own
exceptions come from the operating system, are swallowed by the inner
except, and are outside this embedding). -/
def cleanup_temp_file (fs : String → Option (List Nat)) (p : String) :
    String → Option (List Nat) :=
  if (fs p).isSome then fsDelete fs p else fs

/-- Result of running one button handler: the session state afterwards,
the file system afterwards, the provider calls issued, and the messages
displayed. -/
structure HandlerRun where
  state : SessionState
  fs : String → Option (List Nat)
  calls : List ProviderInput
  messages : List GenMessage

/-- The generator the left handler invokes (src/app.py lines 490 to
493): the video generator for the Short-form Video selection, else the
banner generator with the aspect key. -/
def left_attempt (keys : Keys) (fs : String → Option (List Nat))
    (provider : ProviderInput → CallResult)
    (fetch : String → FetchOutcome) (decode : List Nat → Option PILImage)
    (text : String) (image_path : String) (content_type : String)
    (aspectk : String) : GenRun :=
  if content_type == "Short-form Video" then
    generate_short_form_video keys fs provider fetch decode text image_path
  else
    generate_banner keys fs provider fetch decode text image_path aspectk

/-- The left-column generation handler (src/app.py lines 479 to 506).
The body runs only when the button was clicked and the disabling
condition is false; it saves the upload to the temporary path, invokes
the selected generator, stores the result in session state only when it
is not None, and deletes the temporary file in the finally block on
every path. tempPath stands for the fresh name the operating system
hands to `save_uploaded_file`. -/
def left_generation_handler (clicked : Bool) (text : String)
    (uploaded : Option UploadedFile) (content_type : String)
    (aspect : Option String) (keys : Keys)
    (fs : String → Option (List Nat)) (tempPath : String)
    (provider : ProviderInput → CallResult)
    (fetch : String → FetchOutcome) (decode : List Nat → Option PILImage)
    (state : SessionState) : HandlerRun :=
  if clicked && !(generate_disabled text uploaded) then
    match uploaded with
    | none => { state := state, fs := fs, calls := [], messages := [] }
    | some f =>
      let fs1 := fsWrite fs tempPath f.content
      let aspectk := aspect_key aspect
      let run := left_attempt keys fs1 provider fetch decode text tempPath content_type aspectk
      let output_is_video := content_type == "Short-form Video"
      let state1 :=
        match run.result with
        | some v =>
          if output_is_video then
            { state with left_generated_video := some v,
                         left_generated_aspect := some aspectk,
                         left_generated_content_type := some content_type }
          else
            { state with left_generated_banner := some v,
                         left_generated_aspect := some aspectk,
                         left_generated_content_type := some content_type }
        | none => state
      { state := state1, fs := cleanup_temp_file fs1 tempPath,
        calls := run.calls, messages := run.messages }
  else { state := state, fs := fs, calls := [], messages := [] }

/-- The right-column edit handler (src/app.py lines 610 to 628): same
lifecycle as the left handler, invoking `edit_image` and storing into
the edited-image slot only on success. -/
def right_edit_handler (clicked : Bool) (text : String)
    (uploaded : Option UploadedFile) (keys : Keys)
    (fs : String → Option (List Nat)) (tempPath : String)
    (provider : ProviderInput → CallResult)
    (fetch : String → FetchOutcome) (decode : List Nat → Option PILImage)
    (state : SessionState) : HandlerRun :=
  if clicked && !(edit_disabled text uploaded) then
    match uploaded with
    | none => { state := state, fs := fs, calls := [], messages := [] }
    | some f =>
      let fs1 := fsWrite fs tempPath f.content
      let run := edit_image keys fs1 provider fetch decode text tempPath
      let state1 :=
        match run.result with
        | some v => { state with right_edited_image := some v }
        | none => state
      { state := state1, fs := cleanup_temp_file fs1 tempPath,
        calls := run.calls, messages := run.messages }
  else { state := state, fs := fs, calls := [], messages := [] }

/-! Helper lemmas shared by several claims. -/

/-- In the image branch, a string output is fetched and decoded. -/
theorem process_image_pstr (fetch : String → FetchOutcome)
    (decode : List Nat → Option PILImage) (s : String) :
    process_api_output fetch decode (.pstr s) "image" = imageOutcome fetch decode s := by
  unfold process_api_output process_api_output_body imageOutcome
  cases h : fetch_image fetch decode s <;> simp [h, Except.map]

/-- In the image branch, a non-empty list output has its head coerced
to a string, then fetched and decoded. -/
theorem process_image_plist_cons (fetch : String → FetchOutcome)
    (decode : List Nat → Option PILImage) (x : PyVal) (xs : List PyVal) :
    process_api_output fetch decode (.plist (x :: xs)) "image" =
      imageOutcome fetch decode (pyStr x) := by
  unfold process_api_output process_api_output_body imageOutcome
  cases h : fetch_image fetch decode (pyStr x) <;> simp [h, Except.map]

/-- In the image branch, an object exposing a url attribute has that
URL fetched and decoded. -/
theorem process_image_pobj (fetch : String → FetchOutcome)
    (decode : List Nat → Option PILImage) (u : String) :
    process_api_output fetch decode (.pobjWithUrl u) "image" =
      imageOutcome fetch decode u := by
  unfold process_api_output process_api_output_body imageOutcome
  cases h : fetch_image fetch decode u <;> simp [h, Except.map]

/-- Claim C1: with expected kind Image, the normalizer dispatches over
exactly four shape cases, in the order of the source: a string is
fetched and decoded; a non-empty list has its first element coerced to
a string and the same rule applied; a value exposing a url attribute
has that URL fetched and decoded; any other shape (the guards of the
later disjuncts exclude the earlier cases, so exactly one disjunct
applies to any given output) yields None together with the
unexpected-format message naming the received shape. -/
theorem c1_image_shape_dispatch (fetch : String → FetchOutcome)
    (decode : List Nat → Option PILImage) (output : PyVal) :
    (∃ s, output = .pstr s ∧
      process_api_output fetch decode output "image" = imageOutcome fetch decode s)
  ∨ ((∀ s, output ≠ .pstr s) ∧ ∃ x xs, output = .plist (x :: xs) ∧
      process_api_output fetch decode output "image" = imageOutcome fetch decode (pyStr x))
  ∨ ((∀ s, output ≠ .pstr s) ∧ (∀ x xs, output ≠ .plist (x :: xs)) ∧
      ∃ u, hasUrlAttr output = some u ∧
      process_api_output fetch decode output "image" = imageOutcome fetch decode u)
  ∨ ((∀ s, output ≠ .pstr s) ∧ (∀ x xs, output ≠ .plist (x :: xs)) ∧
      hasUrlAttr output = none ∧
      process_api_output fetch decode output "image" =
        (none, [.unexpectedFormat (pyType output)])) := by
  cases output with
  | pstr s =>
    exact Or.inl ⟨s, rfl, process_image_pstr fetch decode s⟩
  | plist xs =>
    cases xs with
    | nil =>
      refine Or.inr (Or.inr (Or.inr ⟨?_, ?_, rfl, rfl⟩))
      · intro s h; exact PyVal.noConfusion h
      · intro x t h
        injection h with h2
        exact List.noConfusion h2
    | cons x t =>
      refine Or.inr (Or.inl ⟨?_, x, t, rfl, process_image_plist_cons fetch decode x t⟩)
      intro s h; exact PyVal.noConfusion h
  | pobjWithUrl u =>
    refine Or.inr (Or.inr (Or.inl ⟨?_, ?_, u, rfl, process_image_pobj fetch decode u⟩))
    · intro s h; exact PyVal.noConfusion h
    · intro x t h; exact PyVal.noConfusion h
  | pother t =>
    refine Or.inr (Or.inr (Or.inr ⟨?_, ?_, rfl, rfl⟩))
    · intro s h; exact PyVal.noConfusion h
    · intro x xs h; exact PyVal.noConfusion h

/-- Claim C3: the empty list, under either expected kind, produces the
unexpected-format failure (the empty list fails the non-emptiness test
of the second case, has no url attribute, and so reaches the final
case; the embedding is a total function, so no out-of-bounds access is
possible on this path). -/
theorem c3_empty_sequence_unexpected_shape (fetch : String → FetchOutcome)
    (decode : List Nat → Option PILImage) :
    process_api_output fetch decode (.plist []) "image" =
      (none, [.unexpectedFormat "list"])
  ∧ process_api_output fetch decode (.plist []) "video" =
      (none, [.unexpectedFormat "list"]) :=
  ⟨rfl, rfl⟩

/-- Claim C8: with expected kind Video the same four-case dispatch
applies, but no fetch or decode occurs: the result does not depend on
the network or decoder parameters at all (first conjunct), a string is
returned as-is as the video reference, the head of a non-empty list is
coerced to a string and returned, the url attribute is returned, and
any other shape fails with the unexpected-format message. -/
theorem c8_video_dispatch (fetch fetch2 : String → FetchOutcome)
    (decode decode2 : List Nat → Option PILImage) (output : PyVal) :
    process_api_output fetch decode output "video" =
      process_api_output fetch2 decode2 output "video"
  ∧ ((∃ s, output = .pstr s ∧
        process_api_output fetch decode output "video" = (some (.videoUrl s), []))
    ∨ ((∀ s, output ≠ .pstr s) ∧ ∃ x xs, output = .plist (x :: xs) ∧
        process_api_output fetch decode output "video" = (some (.videoUrl (pyStr x)), []))
    ∨ ((∀ s, output ≠ .pstr s) ∧ (∀ x xs, output ≠ .plist (x :: xs)) ∧
        ∃ u, hasUrlAttr output = some u ∧
        process_api_output fetch decode output "video" = (some (.videoUrl u), []))
    ∨ ((∀ s, output ≠ .pstr s) ∧ (∀ x xs, output ≠ .plist (x :: xs)) ∧
        hasUrlAttr output = none ∧
        process_api_output fetch decode output "video" =
          (none, [.unexpectedFormat (pyType output)]))) := by
  cases output with
  | pstr s =>
    exact ⟨rfl, Or.inl ⟨s, rfl, rfl⟩⟩
  | plist xs =>
    cases xs with
    | nil =>
      refine ⟨rfl, Or.inr (Or.inr (Or.inr ⟨?_, ?_, rfl, rfl⟩))⟩
      · intro s h; exact PyVal.noConfusion h
      · intro x t h
        injection h with h2
        exact List.noConfusion h2
    | cons x t =>
      refine ⟨rfl, Or.inr (Or.inl ⟨?_, x, t, rfl, rfl⟩)⟩
      intro s h; exact PyVal.noConfusion h
  | pobjWithUrl u =>
    refine ⟨rfl, Or.inr (Or.inr (Or.inl ⟨?_, ?_, u, rfl, rfl⟩))⟩
    · intro s h; exact PyVal.noConfusion h
    · intro x t h; exact PyVal.noConfusion h
  | pother t =>
    refine ⟨rfl, Or.inr (Or.inr (Or.inr ⟨?_, ?_, rfl, rfl⟩))⟩
    · intro s h; exact PyVal.noConfusion h
    · intro x xs h; exact PyVal.noConfusion h

/-- A non-exceptional run of the dispatch body returns either None
together with exactly the unexpected-format message, or a value
together with no message. -/
theorem process_body_ok_shape (fetch : String → FetchOutcome)
    (decode : List Nat → Option PILImage) (output : PyVal) (content_type : String)
    (r : Option Processed × List ErrMsg)
    (h : process_api_output_body fetch decode output content_type = .ok r) :
    r = (none, [ErrMsg.unexpectedFormat (pyType output)]) ∨ ∃ v, r = (some v, []) := by
  cases hc : (content_type == "image") with
  | true =>
    cases output with
    | pstr s =>
      cases hf : fetch_image fetch decode s with
      | error e => simp [process_api_output_body, hc, hf, Except.map] at h
      | ok img =>
        simp [process_api_output_body, hc, hf, Except.map] at h
        exact Or.inr ⟨.image img, h.symm⟩
    | plist xs =>
      cases xs with
      | nil =>
        simp [process_api_output_body, hc] at h
        exact Or.inl h.symm
      | cons x t =>
        cases hf : fetch_image fetch decode (pyStr x) with
        | error e => simp [process_api_output_body, hc, hf, Except.map] at h
        | ok img =>
          simp [process_api_output_body, hc, hf, Except.map] at h
          exact Or.inr ⟨.image img, h.symm⟩
    | pobjWithUrl u =>
      cases hf : fetch_image fetch decode u with
      | error e => simp [process_api_output_body, hc, hf, Except.map] at h
      | ok img =>
        simp [process_api_output_body, hc, hf, Except.map] at h
        exact Or.inr ⟨.image img, h.symm⟩
    | pother t =>
      simp [process_api_output_body, hc] at h
      exact Or.inl h.symm
  | false =>
    cases output with
    | pstr s =>
      simp [process_api_output_body, hc] at h
      exact Or.inr ⟨.videoUrl s, h.symm⟩
    | plist xs =>
      cases xs with
      | nil =>
        simp [process_api_output_body, hc] at h
        exact Or.inl h.symm
      | cons x t =>
        simp [process_api_output_body, hc] at h
        exact Or.inr ⟨.videoUrl (pyStr x), h.symm⟩
    | pobjWithUrl u =>
      simp [process_api_output_body, hc] at h
      exact Or.inr ⟨.videoUrl u, h.symm⟩
    | pother t =>
      simp [process_api_output_body, hc] at h
      exact Or.inl h.symm

/-- Claim C10: the normalizer never lets an exception escape: a raising
inner body is converted into the None return plus the processing-error
message (second conjunct), and across all inputs the value handed back
to the caller is None exactly when some failure message was emitted, so
None is the sole failure signal the caller receives (first conjunct). -/
theorem c10_none_sole_failure_signal (fetch : String → FetchOutcome)
    (decode : List Nat → Option PILImage) (output : PyVal) (content_type : String) :
    ((process_api_output fetch decode output content_type).1 = none ↔
      (process_api_output fetch decode output content_type).2 ≠ [])
  ∧ ∀ e, process_api_output_body fetch decode output content_type = .error e →
      process_api_output fetch decode output content_type = (none, [.processingError e]) := by
  constructor
  · unfold process_api_output
    cases hb : process_api_output_body fetch decode output content_type with
    | error e => simp
    | ok r =>
      rcases process_body_ok_shape fetch decode output content_type r hb with
        h1 | ⟨v, h1⟩ <;> subst h1 <;> simp
  · intro e he
    unfold process_api_output
    rw [he]

/-- Witness for C10 at a concrete input: a fetch answering 404 on a
string output makes the inner body raise the HTTP error, and the
normalizer returns None with the processing-error message. -/
theorem c10_none_sole_failure_signal_witness :
    process_api_output (fun _ => .response 404 []) (fun _ => none)
      (.pstr "https://example/img.png") "image" =
      (none, [.processingError (.httpError 404)]) :=
  (c10_none_sole_failure_signal (fun _ => .response 404 []) (fun _ => none)
    (.pstr "https://example/img.png") "image").2 (.httpError 404) rfl

/-- Claim C4 fails as stated, in two ways. First, a non-2xx status does
not always yield the HTTP-error failure: raise_for_status raises only
on 4xx and 5xx, so a final 304 response passes through to the decoder
and fails as a decode error (fifth conjunct), and a final 300 response
whose body decodes even succeeds (sixth conjunct). Second, the failure
kinds that do occur (4xx/5xx fetch, undecodable body, unrecognized
shape) all hand the caller the very same value None, so the caller
cannot tell from the returned value which kind occurred; only the
displayed messages differ (fourth conjunct). The first three scenarios
are a 404 response, a 200 response whose body the decoder rejects, and
a shapeless output. -/
theorem c4_counterexample :
    (process_api_output (fun _ => .response 404 []) (fun _ => none)
        (.pstr "https://example/img.png") "image").1 = none
  ∧ (process_api_output (fun _ => .response 200 [1]) (fun _ => none)
        (.pstr "https://example/img.png") "image").1 = none
  ∧ (process_api_output (fun _ => .response 404 []) (fun _ => none)
        (.pother "NoneType") "image").1 = none
  ∧ (process_api_output (fun _ => .response 404 []) (fun _ => none)
        (.pstr "https://example/img.png") "image").2 ≠
      (process_api_output (fun _ => .response 200 [1]) (fun _ => none)
        (.pstr "https://example/img.png") "image").2
  ∧ process_api_output (fun _ => .response 304 []) (fun _ => none)
        (.pstr "https://example/img.png") "image" =
      (none, [.processingError .decodeError])
  ∧ process_api_output (fun _ => .response 300 [1]) (fun b => some ⟨b⟩)
        (.pstr "https://example/img.png") "image" =
      (some (.image ⟨[1]⟩), []) := by
  refine ⟨rfl, rfl, rfl, ?_, rfl, rfl⟩
  decide

/-- Claim C4 as amended: a 4xx or 5xx status while fetching in the
image branch raises the HTTP error, which the normalizer catches; the
displayed message carries that error and is distinct from the
unexpected-format message and from the decode-error message, but the
value returned to the caller is None, the same value as in the other
two failure kinds. (A non-2xx status outside 4xx/5xx that the transport
hands back as a final response does not raise: its body proceeds to the
decoder, as the counterexample shows.) -/
theorem c4_amended_failure_kinds (fetch : String → FetchOutcome)
    (decode : List Nat → Option PILImage) (url : String) (status : Nat) (body : List Nat)
    (hf : fetch url = .response status body)
    (hs : 400 ≤ status ∧ status < 600) :
    process_api_output fetch decode (.pstr url) "image" =
      (none, [.processingError (.httpError status)])
  ∧ (∀ t, ErrMsg.processingError (.httpError status) ≠ .unexpectedFormat t)
  ∧ ErrMsg.processingError (.httpError status) ≠ .processingError .decodeError := by
  refine ⟨?_, ?_, ?_⟩
  · rw [process_image_pstr]
    simp [imageOutcome, fetch_image, hf, hs.1, hs.2]
  · intro t h; exact ErrMsg.noConfusion h
  · intro h
    injection h with h2
    exact PyExn.noConfusion h2

/-- Witness for the amended C4 at a concrete input: a 404 response. -/
theorem c4_amended_failure_kinds_witness :
    process_api_output (fun _ => .response 404 [7]) (fun _ => none)
      (.pstr "https://example/img.png") "image" =
      (none, [.processingError (.httpError 404)]) :=
  (c4_amended_failure_kinds (fun _ => .response 404 [7]) (fun _ => none)
    "https://example/img.png" 404 [7] rfl (by decide)).1

/-- Claim C2: for each of the three capabilities, if any credential is
absent the generator returns None with the configuration-error message
built from exactly the list of missing names, and issues no provider
call (the call log is empty). The final conjunct characterizes that
list: a name is in it exactly when it is one of the three credential
names and that credential is falsy. -/
theorem c2_missing_keys_config_error (keys : Keys)
    (fs : String → Option (List Nat)) (provider : ProviderInput → CallResult)
    (fetch : String → FetchOutcome) (decode : List Nat → Option PILImage)
    (text image_path aspect : String)
    (h : missing_keys keys ≠ []) :
    generate_banner keys fs provider fetch decode text image_path aspect =
      { result := none, calls := [],
        messages := [.configError
          ("Missing API keys: " ++ String.intercalate ", " (missing_keys keys))] }
  ∧ generate_short_form_video keys fs provider fetch decode text image_path =
      { result := none, calls := [],
        messages := [.configError
          ("Missing API keys: " ++ String.intercalate ", " (missing_keys keys))] }
  ∧ edit_image keys fs provider fetch decode text image_path =
      { result := none, calls := [],
        messages := [.configError
          ("Missing API keys: " ++ String.intercalate ", " (missing_keys keys))] }
  ∧ ∀ name, name ∈ missing_keys keys ↔
      ((name = "FAL_API_KEY" ∧ keyPresent keys.fal_api_key = false) ∨
       (name = "GOOGLE_API_KEY" ∧ keyPresent keys.google_api_key = false) ∨
       (name = "REPLICATE_API_TOKEN" ∧ keyPresent keys.replicate_api_token = false)) := by
  have hE : (missing_keys keys).isEmpty = false := by
    cases hm : missing_keys keys with
    | nil => exact absurd hm h
    | cons a t => rfl
  refine ⟨?_, ?_, ?_, ?_⟩
  · simp [generate_banner, check_api_keys, hE]
  · simp [generate_short_form_video, check_api_keys, hE]
  · simp [edit_image, check_api_keys, hE]
  · intro name
    cases hf : keyPresent keys.fal_api_key <;>
      cases hg : keyPresent keys.google_api_key <;>
        cases hr : keyPresent keys.replicate_api_token <;>
          simp [missing_keys, hf, hg, hr]

/-- Witness for C2: with only the FAL credential missing, the banner
generator returns the configuration error naming exactly that key and
makes no provider call. -/
theorem c2_missing_keys_config_error_witness :
    missing_keys ⟨none, some "g", some "r"⟩ ≠ [] ∧
    generate_banner ⟨none, some "g", some "r"⟩ (fun _ => none) (fun _ => .raised "boom")
        (fun _ => .raises "net") (fun _ => none) "t" "p" "vertical" =
      { result := none, calls := [],
        messages := [.configError "Missing API keys: FAL_API_KEY"] } :=
  ⟨by decide,
   ((c2_missing_keys_config_error ⟨none, some "g", some "r"⟩ (fun _ => none)
      (fun _ => .raised "boom") (fun _ => .raises "net") (fun _ => none)
      "t" "p" "vertical" (by decide)).1).trans (by decide)⟩

/-- Claim C5: a failed attempt leaves the session state exactly as it
was, for both the left-column generation handler and the right-column
edit handler; a value is stored in the corresponding slot only when the
generator returns a result. -/
theorem c5_failure_preserves_result_slot (text content_type : String)
    (f : UploadedFile) (aspect : Option String) (keys : Keys)
    (fs : String → Option (List Nat)) (tempPath : String)
    (provider : ProviderInput → CallResult)
    (fetch : String → FetchOutcome) (decode : List Nat → Option PILImage)
    (state : SessionState)
    (hdis : generate_disabled text (some f) = false)
    (hedis : edit_disabled text (some f) = false) :
    ((left_attempt keys (fsWrite fs tempPath f.content) provider fetch decode text
        tempPath content_type (aspect_key aspect)).result = none →
      (left_generation_handler true text (some f) content_type aspect keys fs tempPath
        provider fetch decode state).state = state)
  ∧ (∀ v, (left_attempt keys (fsWrite fs tempPath f.content) provider fetch decode text
        tempPath content_type (aspect_key aspect)).result = some v →
      (left_generation_handler true text (some f) content_type aspect keys fs tempPath
        provider fetch decode state).state =
        (if content_type == "Short-form Video" then
          { state with left_generated_video := some v,
                       left_generated_aspect := some (aspect_key aspect),
                       left_generated_content_type := some content_type }
         else
          { state with left_generated_banner := some v,
                       left_generated_aspect := some (aspect_key aspect),
                       left_generated_content_type := some content_type }))
  ∧ ((edit_image keys (fsWrite fs tempPath f.content) provider fetch decode text
        tempPath).result = none →
      (right_edit_handler true text (some f) keys fs tempPath provider fetch decode
        state).state = state)
  ∧ (∀ v, (edit_image keys (fsWrite fs tempPath f.content) provider fetch decode text
        tempPath).result = some v →
      (right_edit_handler true text (some f) keys fs tempPath provider fetch decode
        state).state = { state with right_edited_image := some v }) := by
  refine ⟨?_, ?_, ?_, ?_⟩
  · intro h
    simp [left_generation_handler, hdis, h]
  · intro v h
    cases hv : (content_type == "Short-form Video") <;>
      simp [left_generation_handler, hdis, h, hv]
  · intro h
    simp [right_edit_handler, hedis, h]
  · intro v h
    simp [right_edit_handler, hedis, h]

/-- Witness for C5: with all credentials missing the attempt fails, and
a previously stored banner survives the failed run untouched. -/
theorem c5_failure_preserves_result_slot_witness :
    generate_disabled "hi" (some ⟨"a.png", [1]⟩) = false ∧
    (left_attempt ⟨none, none, none⟩
        (fsWrite (fun _ => none) "/tmp/t0" [1]) (fun _ => .raised "boom")
        (fun _ => .raises "net") (fun _ => none) "hi" "/tmp/t0" "Banner"
        (aspect_key none)).result = none ∧
    (left_generation_handler true "hi" (some ⟨"a.png", [1]⟩) "Banner" none
        ⟨none, none, none⟩ (fun _ => none) "/tmp/t0" (fun _ => .raised "boom")
        (fun _ => .raises "net") (fun _ => none)
        ⟨some (.image ⟨[9]⟩), none, none, none, none⟩).state =
      ⟨some (.image ⟨[9]⟩), none, none, none, none⟩ :=
  ⟨by decide, by decide,
   (c5_failure_preserves_result_slot "hi" "Banner" ⟨"a.png", [1]⟩ none
      ⟨none, none, none⟩ (fun _ => none) "/tmp/t0" (fun _ => .raised "boom")
      (fun _ => .raises "net") (fun _ => none)
      ⟨some (.image ⟨[9]⟩), none, none, none, none⟩
      (by decide) (by decide)).1 (by decide)⟩

/-- Claim C6: after a run of either handler, the temporary file is gone
from the file system, whatever happened inside the generator (missing
keys, failing open, raising provider, failing normalization, or
success): the finally block deletes it on every path. -/
theorem c6_temp_file_deleted (text content_type : String) (f : UploadedFile)
    (aspect : Option String) (keys : Keys)
    (fs : String → Option (List Nat)) (tempPath : String)
    (provider : ProviderInput → CallResult)
    (fetch : String → FetchOutcome) (decode : List Nat → Option PILImage)
    (state : SessionState)
    (hdis : generate_disabled text (some f) = false)
    (hedis : edit_disabled text (some f) = false) :
    (left_generation_handler true text (some f) content_type aspect keys fs tempPath
      provider fetch decode state).fs tempPath = none
  ∧ (right_edit_handler true text (some f) keys fs tempPath provider fetch decode
      state).fs tempPath = none := by
  have hclean : cleanup_temp_file (fsWrite fs tempPath f.content) tempPath tempPath = none := by
    simp [cleanup_temp_file, fsWrite, fsDelete]
  constructor
  · simp only [left_generation_handler, hdis]
    simpa using hclean
  · simp only [right_edit_handler, hedis]
    simpa using hclean

/-- Witness for C6: a raising provider with valid credentials still
leaves the temporary file deleted after the run. -/
theorem c6_temp_file_deleted_witness :
    generate_disabled "hi" (some ⟨"a.png", [1]⟩) = false ∧
    (left_generation_handler true "hi" (some ⟨"a.png", [1]⟩) "Banner" none
        ⟨some "f", some "g", some "r"⟩ (fun _ => none) "/tmp/t1"
        (fun _ => .raised "boom") (fun _ => .raises "net") (fun _ => none)
        ⟨none, none, none, none, none⟩).fs "/tmp/t1" = none :=
  ⟨by decide,
   (c6_temp_file_deleted "hi" "Banner" ⟨"a.png", [1]⟩ none
      ⟨some "f", some "g", some "r"⟩ (fun _ => none) "/tmp/t1"
      (fun _ => .raised "boom") (fun _ => .raises "net") (fun _ => none)
      ⟨none, none, none, none, none⟩ (by decide) (by decide)).1⟩

/-- Claim C7: a prompt that is empty after stripping whitespace never
reaches the provider: the disabling condition of either column is then
true, the handler body does not run, and the provider call log stays
empty. -/
theorem c7_blank_prompt_no_provider_call (clicked : Bool) (text : String)
    (uploaded : Option UploadedFile) (content_type : String) (aspect : Option String)
    (keys : Keys) (fs : String → Option (List Nat)) (tempPath : String)
    (provider : ProviderInput → CallResult)
    (fetch : String → FetchOutcome) (decode : List Nat → Option PILImage)
    (state : SessionState)
    (h : pyStrip text = "") :
    (left_generation_handler clicked text uploaded content_type aspect keys fs tempPath
      provider fetch decode state).calls = []
  ∧ (right_edit_handler clicked text uploaded keys fs tempPath provider fetch decode
      state).calls = [] := by
  constructor
  · simp [left_generation_handler, generate_disabled, h]
  · simp [right_edit_handler, edit_disabled, h]

/-- Witness for C7: a whitespace-only prompt, clicked button, valid
credentials and a willing provider still produce zero provider calls. -/
theorem c7_blank_prompt_no_provider_call_witness :
    pyStrip "  " = "" ∧
    (left_generation_handler true "  " (some ⟨"a.png", [1]⟩) "Banner" none
        ⟨some "f", some "g", some "r"⟩ (fun _ => none) "/tmp/t2"
        (fun _ => .ok (.pstr "https://example/img.png"))
        (fun _ => .response 200 [1]) (fun b => some ⟨b⟩)
        ⟨none, none, none, none, none⟩).calls = [] :=
  ⟨by decide,
   (c7_blank_prompt_no_provider_call true "  " (some ⟨"a.png", [1]⟩) "Banner" none
      ⟨some "f", some "g", some "r"⟩ (fun _ => none) "/tmp/t2"
      (fun _ => .ok (.pstr "https://example/img.png"))
      (fun _ => .response 200 [1]) (fun b => some ⟨b⟩)
      ⟨none, none, none, none, none⟩ (by decide)).1⟩

/-- Every provider call issued by the banner generator carries exactly
the aspect value the generator was handed. -/
theorem generate_banner_calls_aspect (keys : Keys) (fs : String → Option (List Nat))
    (provider : ProviderInput → CallResult)
    (fetch : String → FetchOutcome) (decode : List Nat → Option PILImage)
    (text image_path a : String) :
    ∀ inp ∈ (generate_banner keys fs provider fetch decode text image_path a).calls,
      inp.aspect = some a := by
  intro inp hmem
  unfold generate_banner at hmem
  cases hck : (check_api_keys keys).1 <;> simp [hck] at hmem
  cases hf : fs image_path with
  | none => simp [hf] at hmem
  | some bytes =>
    simp only [hf] at hmem
    cases hp : provider ⟨banner_model, text, bytes, keys.fal_api_key, keys.google_api_key, some a⟩ <;> simp [hp] at hmem <;> subst hmem <;> rfl

/-- Claim C9: with the aspect selection unset, the fallback expression
yields the string square, and every provider call the left handler
issues for a Banner request carries exactly that aspect value. -/
theorem c9_default_aspect_square (clicked : Bool) (text : String)
    (uploaded : Option UploadedFile) (content_type : String) (keys : Keys)
    (fs : String → Option (List Nat)) (tempPath : String)
    (provider : ProviderInput → CallResult)
    (fetch : String → FetchOutcome) (decode : List Nat → Option PILImage)
    (state : SessionState)
    (hb : (content_type == "Short-form Video") = false) :
    aspect_key none = "square"
  ∧ ∀ inp ∈ (left_generation_handler clicked text uploaded content_type none keys fs
      tempPath provider fetch decode state).calls, inp.aspect = some "square" := by
  refine ⟨rfl, ?_⟩
  intro inp hmem
  unfold left_generation_handler at hmem
  cases hcl : (clicked && !(generate_disabled text uploaded)) <;> simp [hcl] at hmem
  cases uploaded with
  | none => simp at hmem
  | some f =>
    simp [left_attempt, hb] at hmem
    exact generate_banner_calls_aspect keys _ provider fetch decode text tempPath
      (aspect_key none) inp hmem

/-- Witness for C9: a concrete Banner run with the aspect unset issues
its single provider call with the aspect field square. -/
theorem c9_default_aspect_square_witness :
    ProviderInput.aspect
      { model := banner_model, text := "hi", image := [1],
        f_api_key := some "f", g_api_key := some "g", aspect := some "square" } =
      some "square" :=
  (c9_default_aspect_square true "hi" (some ⟨"a.png", [1]⟩) "Banner"
    ⟨some "f", some "g", some "r"⟩ (fun _ => none) "/tmp/t3"
    (fun _ => .raised "boom") (fun _ => .raises "net") (fun _ => none)
    ⟨none, none, none, none, none⟩ (by decide)).2 _ (by decide)

end App
